import Mathlib

/-!
Shallow embedding of the browser-resident file manager (src, main application
component).  The React component keeps its state in a collection of `useState`
hooks and `useRef` cells; we embed that state as one explicit record
(`AppState`) and the origin-private file system (OPFS) root as an association
list from entry names to byte contents (`Storage`).  Opaque host objects
(media streams, recorders, object URLs) are represented by numeric ids;
byte blobs are lists of naturals.  Each orchestration handler of the source
becomes a pure function from the pre-state (plus the host-call outcomes it
awaits, passed as parameters) to the post-state.
-/

set_option autoImplicit false

namespace BrowserFS

/-- A byte blob (`Uint8Array` / `Blob` contents) is a list of byte values. -/
abbrev Bytes := List Nat

/-- `RecordingType` from src (type module): `"webcam" | "screen"`. -/
inductive RecordingType where
  | webcam
  | screen
deriving DecidableEq

/-- The distinct `setError` call sites of the component, one constructor per
human-readable message template produced at the orchestration boundary. -/
inductive AppError where
  | recordingInProgress
  | couldNotStartRecording
  | couldNotCreateRecordingFile
  | recordingWriteError
  | uploadFailed
  | noTextFileLoaded
  | couldNotReadFile
  | couldNotLoadFile (name : String)
  | unknownFileType (name : String)
  | couldNotDeleteFile (name : String)
deriving DecidableEq

/-- The OPFS root: named byte-blob entries.  Entry names are unique in the
root, so an association list models it; all entries are of kind "file". -/
abbrev Storage := List (String × Bytes)

/-- Resolve an entry by exact name (`root.getFileHandle(name)` followed by
`getFile()`: `some` its bytes when the entry exists, `none` otherwise). -/
def storageLookup (storage : Storage) (name : String) : Option Bytes :=
  match storage with
  | [] => none
  | e :: es => if e.1 = name then some e.2 else storageLookup es name

/-- The names enumerated by `root.values()` restricted to kind "file". -/
def storageNames (storage : Storage) : List String :=
  storage.map Prod.fst

/-- `root.getFileHandle(name, { create: true })`: keep an existing entry,
otherwise create an empty one. -/
def storageCreate (storage : Storage) (name : String) : Storage :=
  if (storageLookup storage name).isSome then storage else storage ++ [(name, [])]

/-- Commit of a closed writable stream: replace the named entry's content. -/
def storageSet (storage : Storage) (name : String) (bytes : Bytes) : Storage :=
  match storage with
  | [] => []
  | e :: es =>
    if e.1 = name then (name, bytes) :: storageSet es name bytes
    else e :: storageSet es name bytes

/-- `root.removeEntry(name)`: drop the entry with that (unique) name. -/
def storageRemove (storage : Storage) (name : String) : Storage :=
  match storage with
  | [] => []
  | e :: es =>
    if e.1 = name then storageRemove es name else e :: storageRemove es name

/-- An open `FileSystemWritableFileStream` bound to one entry, together with
the log of the `write` calls performed on it so far (in order). -/
structure WriteTarget where
  name : String
  writes : List Bytes
deriving DecidableEq

/-- `fileName.startsWith(p)` on the underlying character sequences. -/
def charsStartWith : List Char → List Char → Bool
  | _, [] => true
  | [], _ :: _ => false
  | c :: cs, p :: ps => c == p && charsStartWith cs ps

/-- `String.prototype.startsWith` as used for the name dispatch. -/
def strStartsWith (s p : String) : Bool :=
  charsStartWith s.data p.data

/-- The component state: every `useState` hook and `useRef` cell of the main
application component.  `fileContent` is the displayed text content,
identified with the byte sequence it decodes (empty list = nothing shown). -/
structure AppState where
  isSupported : Bool
  isRecording : Bool
  currentRecordingType : Option RecordingType
  mediaRecorder : Option Nat
  mediaStream : Option Nat
  writableStream : Option WriteTarget
  currentFileHandle : Option String
  activeWebcamFileHandle : Option String
  activeScreenFileHandle : Option String
  webcamPlaybackUrl : Option Nat
  screenPlaybackUrl : Option Nat
  activeTextFileHandle : Option String
  fileContent : Bytes
  fileList : List String
  isInspecting : Bool
  isLoading : Bool
  error : Option AppError
  success : Option String
deriving DecidableEq

/-- The initial values of all hooks and refs. -/
def initialState : AppState where
  isSupported := false
  isRecording := false
  currentRecordingType := none
  mediaRecorder := none
  mediaStream := none
  writableStream := none
  currentFileHandle := none
  activeWebcamFileHandle := none
  activeScreenFileHandle := none
  webcamPlaybackUrl := none
  screenPlaybackUrl := none
  activeTextFileHandle := none
  fileContent := []
  fileList := []
  isInspecting := false
  isLoading := false
  error := none
  success := none

/-- `clearMessages`. -/
def clearMessages (st : AppState) : AppState :=
  { st with error := none, success := none }

/-- `handleListFiles`: enumerate the root, store the names, report. -/
def handleListFiles (st : AppState) (storage : Storage) : AppState :=
  let files := storageNames storage
  { st with
      fileList := files
      success := some (if 0 < files.length then
          "Found " ++ toString files.length ++ " file(s)." else "Filesystem is empty.")
      isInspecting := false }

/-- The host capabilities probed by `checkSupportAndLoad`. -/
structure HostCaps where
  storageManager : Bool
  getDirectoryFn : Bool
  mediaDevices : Bool
  mediaRecorderApi : Bool
deriving DecidableEq

/-- `checkSupportAndLoad`: if all capabilities are present, query
`navigator.storage.persisted()` and, when not yet persisted, request
`navigator.storage.persist()`; both boolean results are only logged, never
shown, and do not influence the rest of the flow.  Then mark the app
supported and perform the initial listing.  Otherwise mark it unsupported. -/
def checkSupportAndLoad (caps : HostCaps) (alreadyPersisted persistGranted : Bool)
    (st : AppState) (storage : Storage) : AppState :=
  if caps.storageManager && caps.getDirectoryFn && caps.mediaDevices &&
      caps.mediaRecorderApi then
    handleListFiles { st with isSupported := true } storage
  else
    { st with isSupported := false }

/-- `CHUNK_SIZE = 5 * 1024` from `handleFileSelect`. -/
def CHUNK_SIZE : Nat := 5 * 1024

/-- The inner loop of `handleFileSelect`: `value.subarray(i, i + CHUNK_SIZE)`
for `i = 0, CHUNK_SIZE, 2 * CHUNK_SIZE, ...` splits one reader chunk into
sub-chunks of at most `csize` bytes. -/
def splitSubChunks (csize : Nat) (l : Bytes) : List Bytes :=
  if l = [] ∨ csize = 0 then [] else
    l.take csize :: splitSubChunks csize (l.drop csize)
termination_by l.length
decreasing_by
  rename_i h
  push_neg at h
  have h1 : 0 < l.length := List.length_pos.mpr h.1
  simp [List.length_drop]
  omega

/-- The full sequence of `writable.write(subChunk)` calls issued while
ingesting a file whose reader delivers `chunks`: every chunk, in order, split
into sub-chunks of at most `csize` bytes. -/
def ingestWrites (csize : Nat) (chunks : List Bytes) : List Bytes :=
  (chunks.map (splitSubChunks csize)).flatten

/-- Whether the injected fault hits one of the `numWrites` write calls. -/
def ingestFails (failAt : Option Nat) (numWrites : Nat) : Bool :=
  match failAt with
  | some k => k < numWrites
  | none => false

/-- `handleFileSelect`, generalized over the sub-chunk size (the source fixes
it to `CHUNK_SIZE`).  `file` is `none` when the selection was cancelled, and
otherwise carries the chunks delivered by `file.stream().getReader()`.
`newFileName` is the generated `text-<uuid>.txt` name.  `failAt = some k`
means the `k`-th `write` call (0-based) rejects; the catch block then records
the error and aborts the writable, discarding the pending bytes. -/
def handleFileSelectWith (csize : Nat) (st : AppState) (storage : Storage)
    (file : Option (List Bytes)) (newFileName : String) (failAt : Option Nat) :
    AppState × Storage :=
  match file with
  | none => (st, storage)
  | some chunks =>
    let st1 := clearMessages st
    let st2 := { st1 with isLoading := true, fileContent := [], activeTextFileHandle := none }
    let storage1 := storageCreate storage newFileName
    let writes := ingestWrites csize chunks
    if ingestFails failAt writes.length then
      ({ st2 with error := some .uploadFailed, isLoading := false }, storage1)
    else
      let storage2 := storageSet storage1 newFileName writes.flatten
      let st3 := { st2 with
          activeTextFileHandle := some newFileName
          success := some ("File \x22" ++ newFileName ++ "\x22 uploaded and loaded successfully!") }
      let st4 := handleListFiles st3 storage2
      ({ st4 with isLoading := false }, storage2)

/-- `handleFileSelect` as written, with the source's `CHUNK_SIZE`. -/
def handleFileSelect (st : AppState) (storage : Storage)
    (file : Option (List Bytes)) (newFileName : String) (failAt : Option Nat) :
    AppState × Storage :=
  handleFileSelectWith CHUNK_SIZE st storage file newFileName failAt

/-- `startRecording`.  `stream` is the outcome of `getUserMedia` /
`getDisplayMedia` (`none` = the acquisition rejected); `createOk` is whether
entry creation and writable opening succeed; `newFileName` is the generated
`<type>-<uuid>.webm` name; `sid` inside `stream` identifies the acquired
capture stream. -/
def startRecording (st : AppState) (storage : Storage) (type : RecordingType)
    (stream : Option Nat) (createOk : Bool) (newFileName : String) :
    AppState × Storage :=
  let st1 := clearMessages st
  if st1.isRecording then
    ({ st1 with error := some .recordingInProgress }, storage)
  else
    let st2 := { st1 with
        fileContent := []
        webcamPlaybackUrl := none
        screenPlaybackUrl := none }
    match stream with
    | none => ({ st2 with error := some .couldNotStartRecording }, storage)
    | some sid =>
      let st3 := { st2 with mediaStream := some sid }
      if createOk then
        let storage1 := storageCreate storage newFileName
        ({ st3 with
            writableStream := some ⟨newFileName, []⟩
            currentFileHandle := some newFileName
            isRecording := true
            currentRecordingType := some type
            mediaRecorder := some sid }, storage1)
      else
        ({ st3 with error := some .couldNotCreateRecordingFile, mediaStream := none },
          storage)

/-- `recorder.ondataavailable`: write the slice iff it is non-empty and a
writable is open; a failing write (`writeOk = false`) only records the error
and leaves the recording running. -/
def ondataavailable (st : AppState) (data : Bytes) (writeOk : Bool) : AppState :=
  match st.writableStream with
  | some wt =>
    if 0 < data.length then
      if writeOk then { st with writableStream := some ⟨wt.name, wt.writes ++ [data]⟩ }
      else { st with error := some .recordingWriteError }
    else st
  | none => st

/-- The slices delivered during one recording session, all writes succeeding. -/
def processDataEvents (st : AppState) (slices : List Bytes) : AppState :=
  slices.foldl (fun s d => ondataavailable s d true) st

/-- `recorder.onstop`: close the writable (committing its bytes), promote the
finished entry to the active one for its category, refresh the listing, and
tear the session down. -/
def onstop (st : AppState) (storage : Storage) (type : RecordingType) :
    AppState × Storage :=
  let closed : AppState × Storage :=
    match st.writableStream with
    | some wt =>
      ({ st with writableStream := none }, storageSet storage wt.name wt.writes.flatten)
    | none => (st, storage)
  let st1 := closed.1
  let storage1 := closed.2
  let promoted : AppState :=
    match st1.currentFileHandle with
    | some h =>
      let stA :=
        match type with
        | .webcam => { st1 with activeWebcamFileHandle := some h, webcamPlaybackUrl := none }
        | .screen => { st1 with activeScreenFileHandle := some h, screenPlaybackUrl := none }
      let stB := { stA with
          success := some ("Recording \x22" ++ h ++ "\x22 saved and loaded!") }
      let stC := handleListFiles stB storage1
      { stC with currentFileHandle := none }
    | none => st1
  ({ promoted with
      mediaStream := none
      mediaRecorder := none
      isRecording := false
      currentRecordingType := none }, storage1)

/-- One full successful recording session of the given category: start (the
stream is acquired, the entry is created), deliver `slices`, stop. -/
def recordSession (st : AppState) (storage : Storage) (type : RecordingType)
    (sid : Nat) (newFileName : String) (slices : List Bytes) :
    AppState × Storage :=
  let started := startRecording st storage type (some sid) true newFileName
  let st2 := processDataEvents started.1 slices
  onstop st2 started.2 type

/-- `handleShowFile`: toggle the display of the active text entry's content;
when nothing is shown, read the entry and display its bytes decoded as text. -/
def handleShowFile (st : AppState) (storage : Storage) : AppState :=
  match st.activeTextFileHandle with
  | none => { st with error := some .noTextFileLoaded }
  | some h =>
    let st1 := clearMessages st
    if st1.fileContent ≠ [] then
      { st1 with fileContent := [] }
    else
      let st2 := { st1 with isLoading := true }
      match storageLookup storage h with
      | some bytes =>
        { st2 with
            fileContent := bytes
            success := some ("Showing content for \x22" ++ h ++ "\x22.")
            isLoading := false }
      | none => { st2 with error := some .couldNotReadFile, isLoading := false }

/-- `handleLoadFile`: resolve the handle by exact name, then dispatch on the
name's leading tag to set that category's active entry, clearing the other
two cards and that category's transient companion. -/
def handleLoadFile (st : AppState) (storage : Storage) (fileName : String) :
    AppState :=
  let st1 := { clearMessages st with isLoading := true }
  let st2 :=
    match storageLookup storage fileName with
    | none => { st1 with error := some (.couldNotLoadFile fileName) }
    | some _ =>
      if strStartsWith fileName "text-" then
        { st1 with
            activeTextFileHandle := some fileName
            fileContent := []
            activeWebcamFileHandle := none
            webcamPlaybackUrl := none
            activeScreenFileHandle := none
            screenPlaybackUrl := none
            success := some ("Loaded text file: " ++ fileName) }
      else if strStartsWith fileName "webcam-" then
        { st1 with
            activeWebcamFileHandle := some fileName
            webcamPlaybackUrl := none
            activeTextFileHandle := none
            fileContent := []
            activeScreenFileHandle := none
            screenPlaybackUrl := none
            success := some ("Loaded webcam file: " ++ fileName) }
      else if strStartsWith fileName "screen-" then
        { st1 with
            activeScreenFileHandle := some fileName
            screenPlaybackUrl := none
            activeTextFileHandle := none
            fileContent := []
            activeWebcamFileHandle := none
            webcamPlaybackUrl := none
            success := some ("Loaded screen file: " ++ fileName) }
      else
        { st1 with error := some (.unknownFileType fileName) }
  { st2 with isLoading := false }

/-- The condition of `handleDeleteFile` deciding whether the deleted name was
the active entry of its own category. -/
def wasActiveForItsCategory (st : AppState) (fileName : String) : Bool :=
  (strStartsWith fileName "text-" && st.activeTextFileHandle == some fileName)
  || (strStartsWith fileName "webcam-" && st.activeWebcamFileHandle == some fileName)
  || (strStartsWith fileName "screen-" && st.activeScreenFileHandle == some fileName)

/-- `handleDeleteFile`: remove the entry by exact name (`removeEntry` rejects
when the entry does not exist); when the removed name was the active entry of
its category, clear all three cards; then refresh the listing.  The active
handles the condition reads are the render-closure values, i.e. the values on
entry to the handler (no step in between modifies them). -/
def handleDeleteFile (st : AppState) (storage : Storage) (fileName : String) :
    AppState × Storage :=
  let st1 := { clearMessages st with isLoading := true }
  match storageLookup storage fileName with
  | none =>
    ({ st1 with error := some (.couldNotDeleteFile fileName), isLoading := false },
      storage)
  | some _ =>
    let storage1 := storageRemove storage fileName
    let st2 := { st1 with success := some ("Deleted file: " ++ fileName) }
    let st3 :=
      if wasActiveForItsCategory st fileName then
        { st2 with
            activeTextFileHandle := none
            fileContent := []
            activeWebcamFileHandle := none
            webcamPlaybackUrl := none
            activeScreenFileHandle := none
            screenPlaybackUrl := none }
      else st2
    let st4 := handleListFiles st3 storage1
    ({ st4 with isLoading := false }, storage1)

/-! Helper lemmas about the storage model and the chunking loop. -/

theorem storageLookup_append_of_none (s : Storage) (name : String) (b : Bytes)
    (h : storageLookup s name = none) :
    storageLookup (s ++ [(name, b)]) name = some b := by
  induction s with
  | nil => simp [storageLookup]
  | cons e es ih =>
    rw [storageLookup] at h
    by_cases he : e.1 = name
    · simp [he] at h
    · rw [List.cons_append, storageLookup, if_neg he]
      exact ih (by simpa [he] using h)

theorem storageLookup_storageCreate_isSome (s : Storage) (name : String) :
    (storageLookup (storageCreate s name) name).isSome := by
  rw [storageCreate]
  by_cases h : (storageLookup s name).isSome
  · simpa [h]
  · rw [if_neg h]
    rw [Option.not_isSome_iff_eq_none] at h
    rw [storageLookup_append_of_none s name [] h]
    rfl

theorem storageLookup_storageSet_self (s : Storage) (name : String) (b : Bytes)
    (h : (storageLookup s name).isSome) :
    storageLookup (storageSet s name b) name = some b := by
  induction s with
  | nil => simp [storageLookup] at h
  | cons e es ih =>
    rw [storageSet]
    by_cases he : e.1 = name
    · rw [if_pos he, storageLookup]
      simp
    · rw [if_neg he, storageLookup, if_neg he]
      rw [storageLookup, if_neg he] at h
      exact ih h

theorem storageLookup_commit (s : Storage) (name : String) (b : Bytes) :
    storageLookup (storageSet (storageCreate s name) name b) name = some b :=
  storageLookup_storageSet_self _ name b (storageLookup_storageCreate_isSome s name)

theorem not_mem_storageNames_storageRemove (s : Storage) (name : String) :
    name ∉ storageNames (storageRemove s name) := by
  induction s with
  | nil => simp [storageRemove, storageNames]
  | cons e es ih =>
    rw [storageRemove]
    by_cases he : e.1 = name
    · simpa [he] using ih
    · rw [if_neg he]
      rw [storageNames, List.map_cons]
      simp only [List.mem_cons]
      rintro (h | h)
      · exact he h.symm
      · exact absurd h ih

theorem splitSubChunks_flatten (csize : Nat) (hc : 0 < csize) (l : Bytes) :
    (splitSubChunks csize l).flatten = l := by
  induction l using splitSubChunks.induct csize with
  | case1 l h =>
    rw [splitSubChunks]
    simp only [if_pos h]
    rcases h with h | h
    · simp [h]
    · omega
  | case2 l h ih =>
    rw [splitSubChunks]
    simp only [if_neg h, List.flatten_cons, ih, List.take_append_drop]

theorem splitSubChunks_length_le (csize : Nat) (l : Bytes) :
    ∀ w ∈ splitSubChunks csize l, w.length ≤ csize := by
  induction l using splitSubChunks.induct csize with
  | case1 l h =>
    rw [splitSubChunks]
    simp [if_pos h]
  | case2 l h ih =>
    rw [splitSubChunks]
    simp only [if_neg h, List.mem_cons]
    rintro w (rfl | hw)
    · simpa using Nat.min_le_left csize l.length
    · exact ih w hw

theorem ingestWrites_flatten (csize : Nat) (hc : 0 < csize) (chunks : List Bytes) :
    (ingestWrites csize chunks).flatten = chunks.flatten := by
  induction chunks with
  | nil => rfl
  | cons c cs ih =>
    rw [ingestWrites, List.map_cons, List.flatten_cons, List.flatten_append,
      splitSubChunks_flatten csize hc c]
    rw [ingestWrites] at ih
    rw [ih, List.flatten_cons]

theorem ingestWrites_length_le (csize : Nat) (chunks : List Bytes) :
    ∀ w ∈ ingestWrites csize chunks, w.length ≤ csize := by
  intro w hw
  rw [ingestWrites, List.mem_flatten] at hw
  obtain ⟨ws, hws, hw⟩ := hw
  rw [List.mem_map] at hws
  obtain ⟨c, _, rfl⟩ := hws
  exact splitSubChunks_length_le csize c w hw

theorem charsStartWith_ne_head (l : List Char) (a b : Char) (pa pb : List Char)
    (hab : ¬a = b) (h : charsStartWith l (a :: pa) = true) :
    charsStartWith l (b :: pb) = false := by
  cases l with
  | nil => simp [charsStartWith] at h
  | cons c cs =>
    rw [charsStartWith] at h ⊢
    rw [Bool.and_eq_true, beq_iff_eq] at h
    obtain ⟨rfl, -⟩ := h
    rw [beq_eq_false_iff_ne.mpr hab, Bool.false_and]

theorem strStartsWith_webcam_not_text (s : String)
    (h : strStartsWith s "webcam-" = true) : strStartsWith s "text-" = false :=
  charsStartWith_ne_head s.data 'w' 't' "ebcam-".data "ext-".data (by decide) h

theorem strStartsWith_screen_not_text (s : String)
    (h : strStartsWith s "screen-" = true) : strStartsWith s "text-" = false :=
  charsStartWith_ne_head s.data 's' 't' "creen-".data "ext-".data (by decide) h

theorem strStartsWith_screen_not_webcam (s : String)
    (h : strStartsWith s "screen-" = true) : strStartsWith s "webcam-" = false :=
  charsStartWith_ne_head s.data 's' 'w' "creen-".data "ebcam-".data (by decide) h

theorem processDataEvents_cons (st : AppState) (d : Bytes) (ds : List Bytes) :
    processDataEvents st (d :: ds) = processDataEvents (ondataavailable st d true) ds :=
  rfl

theorem processDataEvents_writable (slices : List Bytes) (st : AppState)
    (wt : WriteTarget) (h : st.writableStream = some wt) :
    processDataEvents st slices
      = { st with writableStream := some ⟨wt.name,
            wt.writes ++ slices.filter (fun d => 0 < d.length)⟩ } := by
  induction slices generalizing st wt with
  | nil =>
    rw [processDataEvents, List.foldl_nil, List.filter_nil, List.append_nil]
    cases st
    simp_all
  | cons d ds ih =>
    rw [processDataEvents_cons]
    by_cases hd : 0 < d.length
    · have hstep : ondataavailable st d true
          = { st with writableStream := some ⟨wt.name, wt.writes ++ [d]⟩ } := by
        rw [ondataavailable, h]
        simp [hd]
      rw [hstep]
      have happ := ih { st with writableStream := some (WriteTarget.mk wt.name (wt.writes ++ [d])) }
        (WriteTarget.mk wt.name (wt.writes ++ [d])) rfl
      rw [happ]
      simp [List.filter_cons, hd]
    · have hstep : ondataavailable st d true = st := by
        rw [ondataavailable, h]
        simp [hd]
      rw [hstep]
      rw [ih st wt h]
      simp [List.filter_cons, hd]

theorem sum_map_length_filter_pos (slices : List Bytes) :
    ((slices.filter (fun d => 0 < d.length)).map List.length).sum
      = (slices.map List.length).sum := by
  induction slices with
  | nil => rfl
  | cons d ds ih =>
    by_cases hd : 0 < d.length
    · simp [List.filter_cons, hd, ih]
    · have hz : d.length = 0 := by omega
      simp [List.filter_cons, hd, ih, hz]

/-! The claims. -/

/-- C1: a successful text-file ingestion stores exactly the source file's
bytes: the concatenation of all sub-chunks written equals the concatenation
of the reader's chunks (so the stored length is the source length N), the
stored entry is the same for any positive sub-chunk size as for the source's
`CHUNK_SIZE`, and with `CHUNK_SIZE` every write is at most 5 KiB. -/
theorem ingest_chunking_invariance (csize : Nat) (hc : 0 < csize) (st : AppState)
    (storage : Storage) (chunks : List Bytes) (newFileName : String) :
    storageLookup
        (handleFileSelectWith csize st storage (some chunks) newFileName none).2 newFileName
      = some chunks.flatten
    ∧ (handleFileSelectWith csize st storage (some chunks) newFileName none).2
      = (handleFileSelect st storage (some chunks) newFileName none).2
    ∧ (∀ w ∈ ingestWrites CHUNK_SIZE chunks, w.length ≤ 5 * 1024) := by
  refine ⟨?_, ?_, ?_⟩
  · show storageLookup (storageSet (storageCreate storage newFileName) newFileName
        (ingestWrites csize chunks).flatten) newFileName = some chunks.flatten
    rw [ingestWrites_flatten csize hc chunks, storageLookup_commit]
  · show storageSet (storageCreate storage newFileName) newFileName
        (ingestWrites csize chunks).flatten
      = storageSet (storageCreate storage newFileName) newFileName
        (ingestWrites CHUNK_SIZE chunks).flatten
    rw [ingestWrites_flatten csize hc chunks,
      ingestWrites_flatten CHUNK_SIZE (by decide) chunks]
  · exact ingestWrites_length_le CHUNK_SIZE chunks

/-- C1 witness at a sub-chunk size of 2 bytes and a two-chunk 4-byte file. -/
theorem ingest_chunking_invariance_witness :
    0 < 2
    ∧ (storageLookup
          (handleFileSelectWith 2 initialState [] (some [[1, 2, 3], [4]]) "text-w.txt" none).2
          "text-w.txt"
        = some ([[1, 2, 3], [4]] : List Bytes).flatten
      ∧ (handleFileSelectWith 2 initialState [] (some [[1, 2, 3], [4]]) "text-w.txt" none).2
        = (handleFileSelect initialState [] (some [[1, 2, 3], [4]]) "text-w.txt" none).2
      ∧ (∀ w ∈ ingestWrites CHUNK_SIZE [[1, 2, 3], [4]], w.length ≤ 5 * 1024)) :=
  ⟨by decide,
    ingest_chunking_invariance 2 (by decide) initialState [] [[1, 2, 3], [4]] "text-w.txt"⟩

/-- C10: an ingestion attempt clears the text category's active entry and the
displayed content up front, and an ingestion that fails mid-write leaves them
cleared: afterwards the text category has no active entry, the content is
empty, and the upload error is surfaced. -/
theorem ingest_failure_clears_text_state (csize : Nat) (st : AppState)
    (storage : Storage) (chunks : List Bytes) (newFileName : String) (k : Nat)
    (hk : k < (ingestWrites csize chunks).length) :
    (handleFileSelectWith csize st storage (some chunks) newFileName (some k)).1.activeTextFileHandle
      = none
    ∧ (handleFileSelectWith csize st storage (some chunks) newFileName (some k)).1.fileContent
      = []
    ∧ (handleFileSelectWith csize st storage (some chunks) newFileName (some k)).1.error
      = some .uploadFailed := by
  have hfail : ingestFails (some k) (ingestWrites csize chunks).length = true := by
    simp [ingestFails, hk]
  rw [handleFileSelectWith]
  simp [hfail]

/-- Pre-state for the C10 witness: a text entry is active and shown. -/
def c10State : AppState :=
  { initialState with activeTextFileHandle := some "text-old.txt", fileContent := [104] }

/-- C10 witness: with sub-chunk size 1, the 3-byte file needs 3 writes and the
second one (index 1) fails; the text card ends up cleared. -/
theorem ingest_failure_clears_text_state_witness :
    1 < (ingestWrites 1 [[7, 8, 9]]).length
    ∧ ((handleFileSelectWith 1 c10State [] (some [[7, 8, 9]]) "text-n.txt" (some 1)).1.activeTextFileHandle
        = none
      ∧ (handleFileSelectWith 1 c10State [] (some [[7, 8, 9]]) "text-n.txt" (some 1)).1.fileContent
        = []
      ∧ (handleFileSelectWith 1 c10State [] (some [[7, 8, 9]]) "text-n.txt" (some 1)).1.error
        = some .uploadFailed) :=
  ⟨by simp [ingestWrites, splitSubChunks],
    ingest_failure_clears_text_state 1 c10State [] [[7, 8, 9]] "text-n.txt" 1
      (by simp [ingestWrites, splitSubChunks])⟩

theorem startRecording_success (st : AppState) (storage : Storage)
    (type : RecordingType) (sid : Nat) (newFileName : String)
    (h : st.isRecording = false) :
    startRecording st storage type (some sid) true newFileName
      = ({ st with
            error := none
            success := none
            fileContent := []
            webcamPlaybackUrl := none
            screenPlaybackUrl := none
            mediaStream := some sid
            writableStream := some ⟨newFileName, []⟩
            currentFileHandle := some newFileName
            isRecording := true
            currentRecordingType := some type
            mediaRecorder := some sid },
          storageCreate storage newFileName) := by
  simp [startRecording, clearMessages, h]

theorem onstop_storage (st : AppState) (storage : Storage) (type : RecordingType)
    (wt : WriteTarget) (h : st.writableStream = some wt) :
    (onstop st storage type).2 = storageSet storage wt.name wt.writes.flatten := by
  rw [onstop, h]

/-- C2: within one recording session, exactly the non-empty data slices are
written, in arrival order (the write log of the open target is the sublist of
non-empty slices), and the entry stored on stop is their concatenation, whose
length is the sum of the non-empty slice sizes, which equals the sum of all
slice sizes (zero-size slices contribute nothing and trigger no write). -/
theorem recording_slices_written (st : AppState) (storage : Storage)
    (type : RecordingType) (sid : Nat) (newFileName : String) (slices : List Bytes)
    (h : st.isRecording = false) :
    (processDataEvents (startRecording st storage type (some sid) true newFileName).1
        slices).writableStream
      = some ⟨newFileName, slices.filter (fun d => 0 < d.length)⟩
    ∧ storageLookup (recordSession st storage type sid newFileName slices).2 newFileName
      = some (slices.filter (fun d => 0 < d.length)).flatten
    ∧ ((slices.filter (fun d => 0 < d.length)).flatten).length
      = ((slices.filter (fun d => 0 < d.length)).map List.length).sum
    ∧ ((slices.filter (fun d => 0 < d.length)).map List.length).sum
      = (slices.map List.length).sum := by
  have hs := startRecording_success st storage type sid newFileName h
  have hw := processDataEvents_writable slices
    (startRecording st storage type (some sid) true newFileName).1
    (WriteTarget.mk newFileName []) (by rw [hs])
  refine ⟨?_, ?_, ?_, ?_⟩
  · rw [hw]
    simp
  · rw [recordSession]
    rw [onstop_storage _ _ _ (WriteTarget.mk newFileName
        (slices.filter (fun d => 0 < d.length))) (by rw [hw]; simp)]
    rw [hs]
    exact storageLookup_commit storage newFileName _
  · rw [List.length_flatten]
  · exact sum_map_length_filter_pos slices

/-- C2 witness: slices of sizes 1000, 0 and 2000 bytes; the write log holds
exactly the two non-empty slices and the stored entry totals 3000 bytes. -/
theorem recording_slices_written_witness :
    initialState.isRecording = false
    ∧ ((processDataEvents
          (startRecording initialState [] .webcam (some 1) true "webcam-w.webm").1
          [List.replicate 1000 7, [], List.replicate 2000 8]).writableStream
        = some ⟨"webcam-w.webm",
            [List.replicate 1000 7, [], List.replicate 2000 8].filter (fun d => 0 < d.length)⟩
      ∧ storageLookup
          (recordSession initialState [] .webcam 1 "webcam-w.webm"
            [List.replicate 1000 7, [], List.replicate 2000 8]).2 "webcam-w.webm"
        = some ([List.replicate 1000 7, [], List.replicate 2000 8].filter
            (fun d => 0 < d.length)).flatten
      ∧ (([List.replicate 1000 7, [], List.replicate 2000 8].filter
            (fun d => 0 < d.length)).flatten).length
        = (([List.replicate 1000 7, [], List.replicate 2000 8].filter
            (fun d => 0 < d.length)).map List.length).sum
      ∧ (([List.replicate 1000 7, [], List.replicate 2000 8].filter
            (fun d => 0 < d.length)).map List.length).sum
        = ([List.replicate 1000 7, [], List.replicate 2000 8].map List.length).sum)
    ∧ ([List.replicate 1000 7, [], List.replicate 2000 8].map
        (List.length (α := Nat))).sum = 3000 :=
  ⟨rfl,
    recording_slices_written initialState [] .webcam 1 "webcam-w.webm"
      [List.replicate 1000 7, [], List.replicate 2000 8] rfl,
    by
      rw [List.map_cons, List.map_cons, List.map_cons, List.map_nil,
        List.length_replicate, List.length_replicate]
      decide⟩

/-- C3: a start request while a recording is active is rejected with the
"already in progress" error; the session's write target, capture stream, file
handle and category, all view state, and the storage root are unchanged. -/
theorem start_while_recording_rejected (st : AppState) (storage : Storage)
    (type : RecordingType) (stream : Option Nat) (createOk : Bool)
    (newFileName : String) (h : st.isRecording = true) :
    (startRecording st storage type stream createOk newFileName).2 = storage
    ∧ (startRecording st storage type stream createOk newFileName).1.error
      = some .recordingInProgress
    ∧ (startRecording st storage type stream createOk newFileName).1.writableStream
      = st.writableStream
    ∧ (startRecording st storage type stream createOk newFileName).1.mediaStream
      = st.mediaStream
    ∧ (startRecording st storage type stream createOk newFileName).1.currentFileHandle
      = st.currentFileHandle
    ∧ (startRecording st storage type stream createOk newFileName).1.currentRecordingType
      = st.currentRecordingType
    ∧ (startRecording st storage type stream createOk newFileName).1.isRecording = true
    ∧ (startRecording st storage type stream createOk newFileName).1.fileContent
      = st.fileContent
    ∧ (startRecording st storage type stream createOk newFileName).1.activeTextFileHandle
      = st.activeTextFileHandle
    ∧ (startRecording st storage type stream createOk newFileName).1.activeWebcamFileHandle
      = st.activeWebcamFileHandle
    ∧ (startRecording st storage type stream createOk newFileName).1.activeScreenFileHandle
      = st.activeScreenFileHandle
    ∧ (startRecording st storage type stream createOk newFileName).1.webcamPlaybackUrl
      = st.webcamPlaybackUrl
    ∧ (startRecording st storage type stream createOk newFileName).1.screenPlaybackUrl
      = st.screenPlaybackUrl := by
  simp [startRecording, clearMessages, h]

/-- Pre-state for the C3 witness: a webcam recording session is active. -/
def c3State : AppState :=
  { initialState with
      isRecording := true
      currentRecordingType := some .webcam
      mediaRecorder := some 5
      mediaStream := some 5
      writableStream := some ⟨"webcam-w.webm", [[1]]⟩
      currentFileHandle := some "webcam-w.webm" }

/-- C3 witness: starting a screen recording while the webcam session of
`c3State` is active is rejected and changes nothing. -/
theorem start_while_recording_rejected_witness :
    c3State.isRecording = true
    ∧ ((startRecording c3State [("webcam-w.webm", [])] .screen (some 9) true
          "screen-n.webm").2 = [("webcam-w.webm", [])]
      ∧ (startRecording c3State [("webcam-w.webm", [])] .screen (some 9) true
          "screen-n.webm").1.error = some .recordingInProgress
      ∧ (startRecording c3State [("webcam-w.webm", [])] .screen (some 9) true
          "screen-n.webm").1.writableStream = c3State.writableStream
      ∧ (startRecording c3State [("webcam-w.webm", [])] .screen (some 9) true
          "screen-n.webm").1.mediaStream = c3State.mediaStream
      ∧ (startRecording c3State [("webcam-w.webm", [])] .screen (some 9) true
          "screen-n.webm").1.currentFileHandle = c3State.currentFileHandle
      ∧ (startRecording c3State [("webcam-w.webm", [])] .screen (some 9) true
          "screen-n.webm").1.currentRecordingType = c3State.currentRecordingType
      ∧ (startRecording c3State [("webcam-w.webm", [])] .screen (some 9) true
          "screen-n.webm").1.isRecording = true
      ∧ (startRecording c3State [("webcam-w.webm", [])] .screen (some 9) true
          "screen-n.webm").1.fileContent = c3State.fileContent
      ∧ (startRecording c3State [("webcam-w.webm", [])] .screen (some 9) true
          "screen-n.webm").1.activeTextFileHandle = c3State.activeTextFileHandle
      ∧ (startRecording c3State [("webcam-w.webm", [])] .screen (some 9) true
          "screen-n.webm").1.activeWebcamFileHandle = c3State.activeWebcamFileHandle
      ∧ (startRecording c3State [("webcam-w.webm", [])] .screen (some 9) true
          "screen-n.webm").1.activeScreenFileHandle = c3State.activeScreenFileHandle
      ∧ (startRecording c3State [("webcam-w.webm", [])] .screen (some 9) true
          "screen-n.webm").1.webcamPlaybackUrl = c3State.webcamPlaybackUrl
      ∧ (startRecording c3State [("webcam-w.webm", [])] .screen (some 9) true
          "screen-n.webm").1.screenPlaybackUrl = c3State.screenPlaybackUrl) :=
  ⟨rfl, start_while_recording_rejected c3State [("webcam-w.webm", [])] .screen
    (some 9) true "screen-n.webm" rfl⟩

/-- Pre-state for the C4 counterexample: text content is displayed and a
webcam playback URL is live. -/
def c4State : AppState :=
  { initialState with fileContent := [104], webcamPlaybackUrl := some 7 }

/-- C4 counterexample: when capture-stream acquisition fails, the displayed
text content (and the playback URLs) are NOT unchanged — `startRecording`
clears them before attempting the acquisition. -/
theorem acquisition_failure_counterexample :
    ¬((startRecording c4State [] .webcam none true "webcam-n.webm").1.fileContent
        = c4State.fileContent
      ∧ (startRecording c4State [] .webcam none true "webcam-n.webm").1.webcamPlaybackUrl
        = c4State.webcamPlaybackUrl) := by
  decide

/-- C4 (amended): when capture-stream acquisition fails, the error is
surfaced and the system stays idle: no storage entry is created, no session
state is set, and the active-entry references are unchanged — but the
displayed text content and both playback URLs have been cleared before the
acquisition attempt and stay cleared. -/
theorem acquisition_failure_idle (st : AppState) (storage : Storage)
    (type : RecordingType) (createOk : Bool) (newFileName : String)
    (h : st.isRecording = false) :
    (startRecording st storage type none createOk newFileName).2 = storage
    ∧ (startRecording st storage type none createOk newFileName).1.error
      = some .couldNotStartRecording
    ∧ (startRecording st storage type none createOk newFileName).1.isRecording = false
    ∧ (startRecording st storage type none createOk newFileName).1.mediaStream
      = st.mediaStream
    ∧ (startRecording st storage type none createOk newFileName).1.mediaRecorder
      = st.mediaRecorder
    ∧ (startRecording st storage type none createOk newFileName).1.writableStream
      = st.writableStream
    ∧ (startRecording st storage type none createOk newFileName).1.currentFileHandle
      = st.currentFileHandle
    ∧ (startRecording st storage type none createOk newFileName).1.currentRecordingType
      = st.currentRecordingType
    ∧ (startRecording st storage type none createOk newFileName).1.activeTextFileHandle
      = st.activeTextFileHandle
    ∧ (startRecording st storage type none createOk newFileName).1.activeWebcamFileHandle
      = st.activeWebcamFileHandle
    ∧ (startRecording st storage type none createOk newFileName).1.activeScreenFileHandle
      = st.activeScreenFileHandle
    ∧ (startRecording st storage type none createOk newFileName).1.fileContent = []
    ∧ (startRecording st storage type none createOk newFileName).1.webcamPlaybackUrl = none
    ∧ (startRecording st storage type none createOk newFileName).1.screenPlaybackUrl
      = none := by
  simp [startRecording, clearMessages, h]

/-- C4 witness: the amended statement at the concrete pre-state `c4State`. -/
theorem acquisition_failure_idle_witness :
    c4State.isRecording = false
    ∧ ((startRecording c4State [] .webcam none true "webcam-n.webm").2 = []
      ∧ (startRecording c4State [] .webcam none true "webcam-n.webm").1.error
        = some .couldNotStartRecording
      ∧ (startRecording c4State [] .webcam none true "webcam-n.webm").1.isRecording = false
      ∧ (startRecording c4State [] .webcam none true "webcam-n.webm").1.mediaStream
        = c4State.mediaStream
      ∧ (startRecording c4State [] .webcam none true "webcam-n.webm").1.mediaRecorder
        = c4State.mediaRecorder
      ∧ (startRecording c4State [] .webcam none true "webcam-n.webm").1.writableStream
        = c4State.writableStream
      ∧ (startRecording c4State [] .webcam none true "webcam-n.webm").1.currentFileHandle
        = c4State.currentFileHandle
      ∧ (startRecording c4State [] .webcam none true "webcam-n.webm").1.currentRecordingType
        = c4State.currentRecordingType
      ∧ (startRecording c4State [] .webcam none true "webcam-n.webm").1.activeTextFileHandle
        = c4State.activeTextFileHandle
      ∧ (startRecording c4State [] .webcam none true "webcam-n.webm").1.activeWebcamFileHandle
        = c4State.activeWebcamFileHandle
      ∧ (startRecording c4State [] .webcam none true "webcam-n.webm").1.activeScreenFileHandle
        = c4State.activeScreenFileHandle
      ∧ (startRecording c4State [] .webcam none true "webcam-n.webm").1.fileContent = []
      ∧ (startRecording c4State [] .webcam none true "webcam-n.webm").1.webcamPlaybackUrl
        = none
      ∧ (startRecording c4State [] .webcam none true "webcam-n.webm").1.screenPlaybackUrl
        = none) :=
  ⟨rfl, acquisition_failure_idle c4State [] .webcam true "webcam-n.webm" rfl⟩

/-- C5: a successful load of a name with a recognized tag sets that
category's active entry to the resolved name, clears that category's
transient companion, and clears the other two categories' active entries and
companions. -/
theorem load_dispatch_exclusive (st : AppState) (storage : Storage)
    (fileName : String) (bytes : Bytes)
    (hres : storageLookup storage fileName = some bytes) :
    (strStartsWith fileName "text-" = true →
      (handleLoadFile st storage fileName).activeTextFileHandle = some fileName
      ∧ (handleLoadFile st storage fileName).fileContent = []
      ∧ (handleLoadFile st storage fileName).activeWebcamFileHandle = none
      ∧ (handleLoadFile st storage fileName).webcamPlaybackUrl = none
      ∧ (handleLoadFile st storage fileName).activeScreenFileHandle = none
      ∧ (handleLoadFile st storage fileName).screenPlaybackUrl = none)
    ∧ (strStartsWith fileName "webcam-" = true →
      (handleLoadFile st storage fileName).activeWebcamFileHandle = some fileName
      ∧ (handleLoadFile st storage fileName).webcamPlaybackUrl = none
      ∧ (handleLoadFile st storage fileName).activeTextFileHandle = none
      ∧ (handleLoadFile st storage fileName).fileContent = []
      ∧ (handleLoadFile st storage fileName).activeScreenFileHandle = none
      ∧ (handleLoadFile st storage fileName).screenPlaybackUrl = none)
    ∧ (strStartsWith fileName "screen-" = true →
      (handleLoadFile st storage fileName).activeScreenFileHandle = some fileName
      ∧ (handleLoadFile st storage fileName).screenPlaybackUrl = none
      ∧ (handleLoadFile st storage fileName).activeTextFileHandle = none
      ∧ (handleLoadFile st storage fileName).fileContent = []
      ∧ (handleLoadFile st storage fileName).activeWebcamFileHandle = none
      ∧ (handleLoadFile st storage fileName).webcamPlaybackUrl = none) := by
  refine ⟨?_, ?_, ?_⟩
  · intro ht
    simp [handleLoadFile, clearMessages, hres, ht]
  · intro hw
    simp [handleLoadFile, clearMessages, hres, hw, strStartsWith_webcam_not_text _ hw]
  · intro hs
    simp [handleLoadFile, clearMessages, hres, hs, strStartsWith_screen_not_text _ hs,
      strStartsWith_screen_not_webcam _ hs]

/-- C5 witness: loading the stored entry `text-a.txt` activates the text card
and clears the two media cards. -/
theorem load_dispatch_exclusive_witness :
    storageLookup [("text-a.txt", [1])] "text-a.txt" = some [1]
    ∧ strStartsWith "text-a.txt" "text-" = true
    ∧ ((handleLoadFile initialState [("text-a.txt", [1])] "text-a.txt").activeTextFileHandle
        = some "text-a.txt"
      ∧ (handleLoadFile initialState [("text-a.txt", [1])] "text-a.txt").fileContent = []
      ∧ (handleLoadFile initialState [("text-a.txt", [1])] "text-a.txt").activeWebcamFileHandle
        = none
      ∧ (handleLoadFile initialState [("text-a.txt", [1])] "text-a.txt").webcamPlaybackUrl
        = none
      ∧ (handleLoadFile initialState [("text-a.txt", [1])] "text-a.txt").activeScreenFileHandle
        = none
      ∧ (handleLoadFile initialState [("text-a.txt", [1])] "text-a.txt").screenPlaybackUrl
        = none) :=
  ⟨by decide, by decide,
    (load_dispatch_exclusive initialState [("text-a.txt", [1])] "text-a.txt" [1]
      (by decide)).1 (by decide)⟩

/-- Pre-state for the C6 counterexample: a text entry and a webcam entry are
both active in their cards. -/
def c6State : AppState :=
  { initialState with
      activeTextFileHandle := some "text-a.txt"
      activeWebcamFileHandle := some "webcam-b.webm" }

def c6Storage : Storage := [("text-a.txt", [1]), ("webcam-b.webm", [2])]

/-- C6 counterexample: deleting the active text entry also clears the webcam
category's active reference, so the other two categories do NOT remain
unchanged. -/
theorem delete_counterexample :
    ¬((handleDeleteFile c6State c6Storage "text-a.txt").1.activeWebcamFileHandle
        = c6State.activeWebcamFileHandle) := by
  decide

/-- C6 (amended): after a successful delete the refreshed listing does not
include the name; if the name was the active entry for its category, the
implementation clears ALL THREE categories' active references and transient
companions (not only that category's); if it was not active, all three
categories' references and companions are unchanged. -/
theorem delete_spec (st : AppState) (storage : Storage) (fileName : String)
    (bytes : Bytes) (hres : storageLookup storage fileName = some bytes) :
    fileName ∉ storageNames (handleDeleteFile st storage fileName).2
    ∧ (handleDeleteFile st storage fileName).1.fileList
      = storageNames (handleDeleteFile st storage fileName).2
    ∧ (wasActiveForItsCategory st fileName = true →
        (handleDeleteFile st storage fileName).1.activeTextFileHandle = none
        ∧ (handleDeleteFile st storage fileName).1.fileContent = []
        ∧ (handleDeleteFile st storage fileName).1.activeWebcamFileHandle = none
        ∧ (handleDeleteFile st storage fileName).1.webcamPlaybackUrl = none
        ∧ (handleDeleteFile st storage fileName).1.activeScreenFileHandle = none
        ∧ (handleDeleteFile st storage fileName).1.screenPlaybackUrl = none)
    ∧ (wasActiveForItsCategory st fileName = false →
        (handleDeleteFile st storage fileName).1.activeTextFileHandle
          = st.activeTextFileHandle
        ∧ (handleDeleteFile st storage fileName).1.fileContent = st.fileContent
        ∧ (handleDeleteFile st storage fileName).1.activeWebcamFileHandle
          = st.activeWebcamFileHandle
        ∧ (handleDeleteFile st storage fileName).1.webcamPlaybackUrl
          = st.webcamPlaybackUrl
        ∧ (handleDeleteFile st storage fileName).1.activeScreenFileHandle
          = st.activeScreenFileHandle
        ∧ (handleDeleteFile st storage fileName).1.screenPlaybackUrl
          = st.screenPlaybackUrl) := by
  refine ⟨?_, ?_, ?_, ?_⟩
  · simp [handleDeleteFile, hres]
    exact not_mem_storageNames_storageRemove storage fileName
  · simp [handleDeleteFile, handleListFiles, hres]
  · intro h
    simp [handleDeleteFile, handleListFiles, clearMessages, hres, h]
  · intro h
    simp [handleDeleteFile, handleListFiles, clearMessages, hres, h]

/-- C6 witness: deleting the active `text-a.txt` from `c6Storage` removes it
from the listing and clears all three cards. -/
theorem delete_spec_witness :
    storageLookup c6Storage "text-a.txt" = some [1]
    ∧ wasActiveForItsCategory c6State "text-a.txt" = true
    ∧ ("text-a.txt" ∉ storageNames (handleDeleteFile c6State c6Storage "text-a.txt").2
      ∧ ((handleDeleteFile c6State c6Storage "text-a.txt").1.activeTextFileHandle = none
        ∧ (handleDeleteFile c6State c6Storage "text-a.txt").1.fileContent = []
        ∧ (handleDeleteFile c6State c6Storage "text-a.txt").1.activeWebcamFileHandle = none
        ∧ (handleDeleteFile c6State c6Storage "text-a.txt").1.webcamPlaybackUrl = none
        ∧ (handleDeleteFile c6State c6Storage "text-a.txt").1.activeScreenFileHandle = none
        ∧ (handleDeleteFile c6State c6Storage "text-a.txt").1.screenPlaybackUrl = none)) :=
  ⟨by decide, by decide,
    (delete_spec c6State c6Storage "text-a.txt" [1] (by decide)).1,
    (delete_spec c6State c6Storage "text-a.txt" [1] (by decide)).2.2.1 (by decide)⟩

/-- C7 counterexample: `load("unknown-xyz")` on an empty root fails with the
"could not load" (not-found) condition, not with the "unknown file type"
(unrecognized category) condition, because the handle is resolved before the
name dispatch. -/
theorem load_unknown_counterexample :
    (handleLoadFile initialState [] "unknown-xyz").error
      = some (.couldNotLoadFile "unknown-xyz")
    ∧ ¬((handleLoadFile initialState [] "unknown-xyz").error
        = some (.unknownFileType "unknown-xyz")) := by
  decide

/-- C7 (amended): a name that does not resolve fails with the "not found"
condition; a name that resolves but matches no known tag fails with the
"unrecognized category" condition; in both cases no category's active entry
or transient companion changes. -/
theorem load_failure_no_state_change (st : AppState) (storage : Storage)
    (fileName : String) :
    (storageLookup storage fileName = none →
      (handleLoadFile st storage fileName).error = some (.couldNotLoadFile fileName)
      ∧ (handleLoadFile st storage fileName).activeTextFileHandle
        = st.activeTextFileHandle
      ∧ (handleLoadFile st storage fileName).activeWebcamFileHandle
        = st.activeWebcamFileHandle
      ∧ (handleLoadFile st storage fileName).activeScreenFileHandle
        = st.activeScreenFileHandle
      ∧ (handleLoadFile st storage fileName).fileContent = st.fileContent
      ∧ (handleLoadFile st storage fileName).webcamPlaybackUrl = st.webcamPlaybackUrl
      ∧ (handleLoadFile st storage fileName).screenPlaybackUrl = st.screenPlaybackUrl)
    ∧ (∀ bytes, storageLookup storage fileName = some bytes →
        strStartsWith fileName "text-" = false →
        strStartsWith fileName "webcam-" = false →
        strStartsWith fileName "screen-" = false →
        (handleLoadFile st storage fileName).error = some (.unknownFileType fileName)
        ∧ (handleLoadFile st storage fileName).activeTextFileHandle
          = st.activeTextFileHandle
        ∧ (handleLoadFile st storage fileName).activeWebcamFileHandle
          = st.activeWebcamFileHandle
        ∧ (handleLoadFile st storage fileName).activeScreenFileHandle
          = st.activeScreenFileHandle
        ∧ (handleLoadFile st storage fileName).fileContent = st.fileContent
        ∧ (handleLoadFile st storage fileName).webcamPlaybackUrl = st.webcamPlaybackUrl
        ∧ (handleLoadFile st storage fileName).screenPlaybackUrl
          = st.screenPlaybackUrl) := by
  constructor
  · intro hn
    simp [handleLoadFile, clearMessages, hn]
  · intro bytes hb h1 h2 h3
    simp [handleLoadFile, clearMessages, hb, h1, h2, h3]

/-- C7 witness: `unknown-xyz` does not resolve and fails not-found;
`mystery.bin` resolves, matches no tag, and fails unrecognized-category; in
both cases the cards are untouched. -/
theorem load_failure_no_state_change_witness :
    (storageLookup [("mystery.bin", [0])] "unknown-xyz" = none
      ∧ (handleLoadFile initialState [("mystery.bin", [0])] "unknown-xyz").error
        = some (.couldNotLoadFile "unknown-xyz"))
    ∧ (storageLookup [("mystery.bin", [0])] "mystery.bin" = some [0]
      ∧ strStartsWith "mystery.bin" "text-" = false
      ∧ strStartsWith "mystery.bin" "webcam-" = false
      ∧ strStartsWith "mystery.bin" "screen-" = false
      ∧ (handleLoadFile initialState [("mystery.bin", [0])] "mystery.bin").error
        = some (.unknownFileType "mystery.bin")
      ∧ (handleLoadFile initialState [("mystery.bin", [0])] "mystery.bin").activeTextFileHandle
        = initialState.activeTextFileHandle) :=
  ⟨⟨by decide,
      ((load_failure_no_state_change initialState [("mystery.bin", [0])]
        "unknown-xyz").1 (by decide)).1⟩,
    ⟨by decide, by decide, by decide, by decide,
      ((load_failure_no_state_change initialState [("mystery.bin", [0])]
        "mystery.bin").2 [0] (by decide) (by decide) (by decide) (by decide)).1,
      ((load_failure_no_state_change initialState [("mystery.bin", [0])]
        "mystery.bin").2 [0] (by decide) (by decide) (by decide) (by decide)).2.1⟩⟩

/-- C8: with all host capabilities present, a denied persistent-storage grant
(`persist()` resolving `false`) is non-fatal: the app marks itself supported,
performs the initial listing, and surfaces no error. -/
theorem persist_denial_nonfatal (caps : HostCaps) (alreadyPersisted : Bool)
    (st : AppState) (storage : Storage)
    (hc : caps.storageManager = true) (hg : caps.getDirectoryFn = true)
    (hm : caps.mediaDevices = true) (hr : caps.mediaRecorderApi = true)
    (herr : st.error = none) :
    (checkSupportAndLoad caps alreadyPersisted false st storage).isSupported = true
    ∧ (checkSupportAndLoad caps alreadyPersisted false st storage).fileList
      = storageNames storage
    ∧ (checkSupportAndLoad caps alreadyPersisted false st storage).error = none := by
  simp [checkSupportAndLoad, handleListFiles, hc, hg, hm, hr, herr]

/-- All four probed capabilities are present. -/
def allCaps : HostCaps where
  storageManager := true
  getDirectoryFn := true
  mediaDevices := true
  mediaRecorderApi := true

/-- C8 witness: full capabilities, storage not yet persisted and the grant
request denied, one pre-existing entry. -/
theorem persist_denial_nonfatal_witness :
    allCaps.storageManager = true
    ∧ allCaps.getDirectoryFn = true
    ∧ allCaps.mediaDevices = true
    ∧ allCaps.mediaRecorderApi = true
    ∧ initialState.error = none
    ∧ ((checkSupportAndLoad allCaps false false initialState
          [("text-a.txt", [1])]).isSupported = true
      ∧ (checkSupportAndLoad allCaps false false initialState
          [("text-a.txt", [1])]).fileList = storageNames [("text-a.txt", [1])]
      ∧ (checkSupportAndLoad allCaps false false initialState
          [("text-a.txt", [1])]).error = none) :=
  ⟨rfl, rfl, rfl, rfl, rfl,
    persist_denial_nonfatal allCaps false initialState [("text-a.txt", [1])]
      rfl rfl rfl rfl rfl⟩

theorem handleShowFile_displays (st : AppState) (storage : Storage) (h : String)
    (bytes : Bytes) (hactive : st.activeTextFileHandle = some h)
    (hshown : st.fileContent = []) (hbytes : storageLookup storage h = some bytes) :
    (handleShowFile st storage).fileContent = bytes
    ∧ (handleShowFile st storage).activeTextFileHandle = some h := by
  simp [handleShowFile, clearMessages, hactive, hshown, hbytes]

theorem handleFileSelect_success_state (st : AppState) (storage : Storage)
    (chunks : List Bytes) (newName : String) :
    (handleFileSelect st storage (some chunks) newName none).1.activeTextFileHandle
      = some newName
    ∧ (handleFileSelect st storage (some chunks) newName none).1.fileContent = []
    ∧ storageLookup (handleFileSelect st storage (some chunks) newName none).2 newName
      = some chunks.flatten := by
  refine ⟨rfl, rfl, ?_⟩
  have hst : (handleFileSelect st storage (some chunks) newName none).2
      = storageSet (storageCreate storage newName) newName
        (ingestWrites CHUNK_SIZE chunks).flatten := rfl
  rw [hst, ingestWrites_flatten CHUNK_SIZE (by decide) chunks, storageLookup_commit]

/-- C9: with a text entry active and nothing currently displayed (the card's
button reads "Show"), the show action displays the entry's stored bytes
verbatim and keeps the entry active; in particular, showing right after a
successful ingestion displays exactly the uploaded file's bytes. -/
theorem show_action_verbatim (st : AppState) (storage : Storage) (h : String)
    (bytes : Bytes) (hactive : st.activeTextFileHandle = some h)
    (hshown : st.fileContent = []) (hbytes : storageLookup storage h = some bytes) :
    (handleShowFile st storage).fileContent = bytes
    ∧ (handleShowFile st storage).activeTextFileHandle = some h
    ∧ (∀ (st0 : AppState) (storage0 : Storage) (chunks : List Bytes) (newName : String),
        (handleShowFile (handleFileSelect st0 storage0 (some chunks) newName none).1
          (handleFileSelect st0 storage0 (some chunks) newName none).2).fileContent
        = chunks.flatten) := by
  refine ⟨(handleShowFile_displays st storage h bytes hactive hshown hbytes).1,
    (handleShowFile_displays st storage h bytes hactive hshown hbytes).2, ?_⟩
  intro st0 storage0 chunks newName
  obtain ⟨h1, h2, h3⟩ := handleFileSelect_success_state st0 storage0 chunks newName
  exact (handleShowFile_displays _ _ newName chunks.flatten h1 h2 h3).1

/-- Pre-state for the C9 witness: `text-a.txt` is active, nothing shown. -/
def c9State : AppState :=
  { initialState with activeTextFileHandle := some "text-a.txt" }

/-- C9 witness: showing the active 2-byte entry displays its bytes. -/
theorem show_action_verbatim_witness :
    c9State.activeTextFileHandle = some "text-a.txt"
    ∧ c9State.fileContent = []
    ∧ storageLookup [("text-a.txt", [104, 105])] "text-a.txt" = some [104, 105]
    ∧ ((handleShowFile c9State [("text-a.txt", [104, 105])]).fileContent = [104, 105]
      ∧ (handleShowFile c9State [("text-a.txt", [104, 105])]).activeTextFileHandle
        = some "text-a.txt") :=
  ⟨rfl, rfl, by decide,
    (show_action_verbatim c9State [("text-a.txt", [104, 105])] "text-a.txt"
      [104, 105] rfl rfl (by decide)).1,
    (show_action_verbatim c9State [("text-a.txt", [104, 105])] "text-a.txt"
      [104, 105] rfl rfl (by decide)).2.1⟩

end BrowserFS
